import Mathlib

/-!
Verification of the Risk Computation & Event Detection Engine of the
liveAI repository against its specification.

The Python modules `pathway_pipeline/risk.py`, `pathway_pipeline/events.py`,
`pathway_pipeline/greeks.py`, `config/settings.py` and `config/instruments.py`
are shallowly embedded below.  Exact real/rational arithmetic (`ℚ` for the
purely rational detector/scorer code, `ℝ` for the transcendental pricing
kernel) stands for Python's float arithmetic; a separate small IEEE-flavoured
value type (`Fl`) is used where a claim is specifically about NaN behaviour
and division-by-zero exceptions.
-/

namespace LiveAI

/-! ## Embedding of `config/settings.py` — `RiskThresholds`

The Python `RiskThresholds` dataclass has six numeric fields with defaults and
a `shock_scenarios` list that `__post_init__` fills with the default shock set
when the constructor received `None`.  The dataclass performs no validation of
any kind: every combination of field values constructs successfully. -/

structure RiskThresholds where
  delta_change_threshold : ℚ
  gamma_change_threshold : ℚ
  theta_change_threshold : ℚ
  vega_change_threshold : ℚ
  stable_max : ℚ
  sensitive_max : ℚ
  shock_scenarios : List ℚ
  deriving Repr, DecidableEq

/-- `RiskThresholds(...)` followed by `__post_init__`: all positional fields
are stored unchanged, and a `None` shock list is replaced by the default
`[0.01, 0.05, -0.01, -0.05]`.  No field is checked, no exception can be
raised. -/
def mkRiskThresholds (dlt gam tht veg stbl sens : ℚ)
    (shocks : Option (List ℚ)) : RiskThresholds :=
  { delta_change_threshold := dlt
    gamma_change_threshold := gam
    theta_change_threshold := tht
    vega_change_threshold := veg
    stable_max := stbl
    sensitive_max := sens
    shock_scenarios := shocks.getD [1/100, 1/20, -1/100, -1/20] }

/-- The default-constructed `RiskThresholds()` of `config/settings.py`. -/
def defaultRiskThresholds : RiskThresholds :=
  mkRiskThresholds (1/20) (1/10) (1/20) (1/10) 30 65 none

/-! ## Embedding of `pathway_pipeline/risk.py` -/

/-- The Greek values handed to `compute_risk_score` (the pipeline's metrics
dictionary always carries these four keys). -/
structure Greeks where
  delta : ℚ
  gamma : ℚ
  theta : ℚ
  vega : ℚ
  deriving Repr, DecidableEq

/-- `np.clip(x, lo, hi)`. -/
def clip (x lo hi : ℚ) : ℚ := min (max x lo) hi

/-- `compute_risk_score` of `risk.py`: weighted sum of four clamped and
scaled absolute Greek magnitudes, clipped into `[0, 100]`. -/
def compute_risk_score (g : Greeks) : ℚ :=
  let delta := |g.delta|
  let gamma := |g.gamma|
  let theta := |g.theta|
  let vega := |g.vega|
  let w_delta : ℚ := 25/100
  let w_gamma : ℚ := 35/100
  let w_theta : ℚ := 20/100
  let w_vega : ℚ := 20/100
  let delta_score := min (delta * 100) 100
  let gamma_score := min (gamma * 1000) 100
  let theta_score := min (theta * 10) 100
  let vega_score := min (vega * 5) 100
  let risk_score :=
    w_delta * delta_score + w_gamma * gamma_score +
    w_theta * theta_score + w_vega * vega_score
  clip risk_score 0 100

/-- `determine_risk_regime` of `risk.py`; the Python code reads the cutoffs
from the global `config.risk_thresholds`, passed explicitly here. -/
def determine_risk_regime (t : RiskThresholds) (risk_score : ℚ) : String :=
  if risk_score ≤ t.stable_max then "STABLE"
  else if risk_score ≤ t.sensitive_max then "SENSITIVE"
  else "FRAGILE"

/-! ## Embedding of `pathway_pipeline/events.py` (exact arithmetic) -/

/-- The `RiskEvent` dataclass.  The human-readable `description` f-string is
carried as a fixed tag per event type (its embedded numeric formatting plays
no role in any property). -/
structure RiskEvent where
  timestamp : String
  event_type : String
  severity : String
  description : String
  old_value : ℚ
  new_value : ℚ
  change_pct : ℚ
  deriving Repr, DecidableEq

/-- The slice of the metrics dictionary that `detect_events` reads. -/
structure Metrics where
  timestamp : String
  delta : ℚ
  gamma : ℚ
  theta : ℚ
  vega : ℚ
  risk_regime : String
  deriving Repr, DecidableEq

/-- Mutable state of a `RiskEventDetector` (`previous_metrics`,
`event_history`); `max_history_size` is the constant 100. -/
structure DetectorState where
  previous_metrics : Option Metrics
  event_history : List RiskEvent
  deriving Repr, DecidableEq

/-- A freshly constructed `RiskEventDetector()`. -/
def initDetector : DetectorState :=
  { previous_metrics := none, event_history := [] }

/-- `1e-10`, the near-zero guard of the detector. -/
def eps : ℚ := 1/10000000000

/-- `RiskEventDetector._significant_change`. -/
def significantChange (old_value new_value threshold : ℚ) : Bool :=
  if |old_value| < eps then |new_value| > threshold
  else |(new_value - old_value) / old_value| ≥ threshold

/-- `RiskEventDetector._calc_change_pct`. -/
def calcChangePct (old_value new_value : ℚ) : ℚ :=
  if |old_value| < eps then
    if |new_value| < eps then 0 else 100
  else ((new_value - old_value) / old_value) * 100

/-- `RiskEventDetector._classify_severity`. -/
def classifySeverity (old_value new_value threshold : ℚ) : String :=
  if |old_value| < eps then "MEDIUM"
  else
    let change_pct := |(new_value - old_value) / old_value|
    if change_pct ≥ threshold * 3 then "HIGH"
    else if change_pct ≥ threshold * (3/2) then "MEDIUM"
    else "LOW"

/-- `regime_order.get(r, 1)` of `_regime_change_severity`. -/
def regimeOrder (r : String) : ℤ :=
  if r = "STABLE" then 0
  else if r = "SENSITIVE" then 1
  else if r = "FRAGILE" then 2
  else 1

/-- `RiskEventDetector._regime_change_severity`. -/
def regimeChangeSeverity (old_regime new_regime : String) : String :=
  let diff := |regimeOrder new_regime - regimeOrder old_regime|
  if diff ≥ 2 then "HIGH"
  else if diff = 1 then "MEDIUM"
  else "LOW"

/-- The event list built by one warm `detect_events` call: the four Greek
comparisons in the code's fixed order, then the regime comparison. -/
def warmEvents (t : RiskThresholds) (prev cur : Metrics) : List RiskEvent :=
  let ts := cur.timestamp
  (if significantChange prev.delta cur.delta t.delta_change_threshold then
    [{ timestamp := ts, event_type := "DELTA_CHANGE"
       severity := classifySeverity prev.delta cur.delta t.delta_change_threshold
       description := "Delta changed"
       old_value := prev.delta, new_value := cur.delta
       change_pct := calcChangePct prev.delta cur.delta }]
   else []) ++
  (if significantChange prev.gamma cur.gamma t.gamma_change_threshold then
    [{ timestamp := ts, event_type := "GAMMA_CHANGE"
       severity := classifySeverity prev.gamma cur.gamma t.gamma_change_threshold
       description := "Gamma changed"
       old_value := prev.gamma, new_value := cur.gamma
       change_pct := calcChangePct prev.gamma cur.gamma }]
   else []) ++
  (if significantChange prev.theta cur.theta t.theta_change_threshold then
    [{ timestamp := ts, event_type := "THETA_CHANGE"
       severity := classifySeverity prev.theta cur.theta t.theta_change_threshold
       description := "Theta changed"
       old_value := prev.theta, new_value := cur.theta
       change_pct := calcChangePct prev.theta cur.theta }]
   else []) ++
  (if significantChange prev.vega cur.vega t.vega_change_threshold then
    [{ timestamp := ts, event_type := "VEGA_CHANGE"
       severity := classifySeverity prev.vega cur.vega t.vega_change_threshold
       description := "Vega changed"
       old_value := prev.vega, new_value := cur.vega
       change_pct := calcChangePct prev.vega cur.vega }]
   else []) ++
  (if prev.risk_regime ≠ cur.risk_regime then
    [{ timestamp := ts, event_type := "REGIME_CHANGE"
       severity := regimeChangeSeverity prev.risk_regime cur.risk_regime
       description := "Risk regime transitioned"
       old_value := 0, new_value := 0, change_pct := 0 }]
   else [])

/-- The `event_history[-max_history_size:]` trim. -/
def trimHistory (h : List RiskEvent) : List RiskEvent :=
  if h.length > 100 then h.drop (h.length - 100) else h

/-- `RiskEventDetector.detect_events`: returns the emitted events together
with the updated detector state. -/
def detectEvents (s : DetectorState) (t : RiskThresholds) (cur : Metrics) :
    List RiskEvent × DetectorState :=
  match s.previous_metrics with
  | none => ([], { s with previous_metrics := some cur })
  | some prev =>
    let events := warmEvents t prev cur
    (events,
      { previous_metrics := some cur
        event_history := trimHistory (s.event_history ++ events) })

/-- The four Greek fields whose changes the detector watches. -/
inductive GField | delta | gamma | theta | vega
  deriving Repr, DecidableEq

/-- The value of a watched field in a metrics record. -/
def fieldValue : GField → Metrics → ℚ
  | .delta, m => m.delta
  | .gamma, m => m.gamma
  | .theta, m => m.theta
  | .vega, m => m.vega

/-- The configured threshold governing a watched field. -/
def fieldThreshold : GField → RiskThresholds → ℚ
  | .delta, t => t.delta_change_threshold
  | .gamma, t => t.gamma_change_threshold
  | .theta, t => t.theta_change_threshold
  | .vega, t => t.vega_change_threshold

/-- The event type string a watched field emits. -/
def fieldEventType : GField → String
  | .delta => "DELTA_CHANGE"
  | .gamma => "GAMMA_CHANGE"
  | .theta => "THETA_CHANGE"
  | .vega => "VEGA_CHANGE"

/-! ## Embedding of `pathway_pipeline/greeks.py`

`scipy.stats.norm.pdf`/`norm.cdf` are the standard normal density and its
cumulative integral; they are embedded through Mathlib's Gaussian density. -/

/-- `norm.pdf`: the standard normal density. -/
noncomputable def normPdf (x : ℝ) : ℝ := ProbabilityTheory.gaussianPDFReal 0 1 x

/-- `norm.cdf`: the standard normal cumulative distribution function. -/
noncomputable def normCdf (x : ℝ) : ℝ := ∫ t in Set.Iic x, normPdf t

/-- `option_type` literal. -/
inductive OptionType | call | put
  deriving Repr, DecidableEq

/-- `black_76_price` of `greeks.py`, including its expired-option
short-circuit for `T ≤ 0`. -/
noncomputable def black76Price (F K T r σ : ℝ) (ot : OptionType) : ℝ :=
  if T ≤ 0 then
    match ot with
    | .call => max (F - K) 0
    | .put => max (K - F) 0
  else
    let d1 := (Real.log (F / K) + (σ ^ 2 / 2) * T) / (σ * Real.sqrt T)
    let d2 := d1 - σ * Real.sqrt T
    let discount := Real.exp (-r * T)
    match ot with
    | .call => discount * (F * normCdf d1 - K * normCdf d2)
    | .put => discount * (K * normCdf (-d2) - F * normCdf (-d1))

/-- The five sensitivities returned by `compute_greeks`. -/
structure GreeksOut where
  delta : ℝ
  gamma : ℝ
  theta : ℝ
  vega : ℝ
  rho : ℝ

/-- `compute_greeks` of `greeks.py`.  The code first floors the time to
expiration at `0.0001` and then computes every quantity — including the
discount factor — from the floored time. -/
noncomputable def computeGreeks (F K T₀ r σ : ℝ) (ot : OptionType) : GreeksOut :=
  let T := if T₀ ≤ 1/10000 then 1/10000 else T₀
  let d1 := (Real.log (F / K) + (σ ^ 2 / 2) * T) / (σ * Real.sqrt T)
  let d2 := d1 - σ * Real.sqrt T
  let discount := Real.exp (-r * T)
  let delta :=
    match ot with
    | .call => discount * normCdf d1
    | .put => -discount * normCdf (-d1)
  let gamma := discount * normPdf d1 / (F * σ * Real.sqrt T)
  let vega := F * discount * normPdf d1 * Real.sqrt T / 100
  let theta :=
    match ot with
    | .call =>
      (-F * discount * normPdf d1 * σ / (2 * Real.sqrt T)
        - r * F * normCdf d1 * discount
        + r * K * discount * normCdf d2) / 365
    | .put =>
      (-F * discount * normPdf d1 * σ / (2 * Real.sqrt T)
        + r * F * normCdf (-d1) * discount
        - r * K * discount * normCdf (-d2)) / 365
  let rho :=
    match ot with
    | .call => -T * (F * normCdf d1 - K * normCdf d2) * discount / 100
    | .put => -T * (K * normCdf (-d2) - F * normCdf (-d1)) * discount / 100
  { delta := delta, gamma := gamma, theta := theta, vega := vega, rho := rho }

/-! ## Embedding of `config/instruments.py` -/

/-- The fields of `OptionContract` the kernel reads; `expiration` and the
`current_time` argument are instants measured in days, so that
`(expiration - current_time).days` is the floor of their difference. -/
structure OptionContract where
  option_type : OptionType
  strike : ℝ
  expiration : ℝ
  risk_free_rate : ℝ

/-- `OptionContract.time_to_expiration_years`:
`max((expiration - current_time).days / 365, 0.0001)`. -/
noncomputable def tteYears (opt : OptionContract) (current_time : ℝ) : ℝ :=
  max ((⌊opt.expiration - current_time⌋ : ℝ) / 365) (1/10000)

/-- The dictionary returned by `calculate_option_greeks`. -/
structure FullGreeks where
  option_price : ℝ
  delta : ℝ
  gamma : ℝ
  theta : ℝ
  vega : ℝ
  rho : ℝ

/-- `calculate_option_greeks` of `greeks.py`; the Python code reads the
module-global `DEFAULT_OPTION` (whose expiration is fixed at import time),
passed explicitly here. -/
noncomputable def calculateOptionGreeks (opt : OptionContract)
    (underlying_price current_time volatility : ℝ) : FullGreeks :=
  let tte := tteYears opt current_time
  let p := black76Price underlying_price opt.strike tte opt.risk_free_rate
    volatility opt.option_type
  let g := computeGreeks underlying_price opt.strike tte opt.risk_free_rate
    volatility opt.option_type
  { option_price := p, delta := g.delta, gamma := g.gamma, theta := g.theta
    vega := g.vega, rho := g.rho }

/-- `shock_greeks` of `greeks.py`. -/
noncomputable def shockGreeks (opt : OptionContract)
    (base_price : ℝ) (shock_percent : ℚ) (current_time volatility : ℝ) :
    FullGreeks :=
  let shocked_price := base_price * (1 + (shock_percent : ℝ))
  calculateOptionGreeks opt shocked_price current_time volatility

/-- Python `int()`: truncation toward zero. -/
def truncQ (q : ℚ) : ℤ := if 0 ≤ q then ⌊q⌋ else ⌈q⌉

/-- The scenario label
`f"shock_{'+' if shock_pct >= 0 else ''}{int(shock_pct * 100)}pct"` of
`compute_shock_scenarios` in `risk.py` (a negative percentage carries its own
minus sign). -/
def shockLabel (shock_pct : ℚ) : String :=
  "shock_" ++ (if 0 ≤ shock_pct then "+" else "") ++
    toString (truncQ (shock_pct * 100)) ++ "pct"

/-- `compute_shock_scenarios` of `risk.py`: one labelled shocked-Greeks entry
per configured shock fraction, in list order (Python dict keyed by the
labels, which preserves insertion order). -/
noncomputable def computeShockScenarios (opt : OptionContract)
    (base_price current_time volatility : ℝ) (shocks : List ℚ) :
    List (String × FullGreeks) :=
  shocks.map fun shock_pct =>
    (shockLabel shock_pct, shockGreeks opt base_price shock_pct current_time volatility)

/-! ## IEEE-flavoured embedding of the detector for the NaN claims

Python floats under the operations `detect_events` performs are either NaN
or an (idealised exact) finite value.  `abs`/`-`/`*` propagate NaN, every
comparison involving NaN is `False`, and float division raises
`ZeroDivisionError` exactly when the divisor equals `0.0` (modelled as
`none`); NaN divided by a non-zero value is NaN. -/

inductive Fl where
  | nan : Fl
  | fin : ℚ → Fl
  deriving Repr, DecidableEq

namespace Fl

def fabs : Fl → Fl
  | .nan => .nan
  | .fin q => .fin |q|

def fsub : Fl → Fl → Fl
  | .fin a, .fin b => .fin (a - b)
  | _, _ => .nan

def fmul : Fl → Fl → Fl
  | .fin a, .fin b => .fin (a * b)
  | _, _ => .nan

/-- Float division; `none` models the `ZeroDivisionError` CPython raises
whenever the divisor compares equal to `0.0`, regardless of the dividend. -/
def fdiv : Fl → Fl → Option Fl
  | a, .fin q =>
    if q = 0 then none
    else match a with
      | .fin p => some (.fin (p / q))
      | .nan => some .nan
  | _, .nan => some .nan

def flt : Fl → Fl → Bool
  | .fin a, .fin b => decide (a < b)
  | _, _ => false

def fgt (a b : Fl) : Bool := flt b a

def fge : Fl → Fl → Bool
  | .fin a, .fin b => decide (b ≤ a)
  | _, _ => false

end Fl

/-- The metrics slice read by `detect_events`, float-valued. -/
structure MetricsF where
  timestamp : String
  delta : Fl
  gamma : Fl
  theta : Fl
  vega : Fl
  risk_regime : String
  deriving Repr, DecidableEq

/-- `RiskEvent` with float-valued numeric fields. -/
structure RiskEventF where
  timestamp : String
  event_type : String
  severity : String
  description : String
  old_value : Fl
  new_value : Fl
  change_pct : Fl
  deriving Repr, DecidableEq

/-- Float-valued detector state. -/
structure DetectorStateF where
  previous_metrics : Option MetricsF
  event_history : List RiskEventF
  deriving Repr, DecidableEq

/-- The value of a watched field in a float-valued metrics record. -/
def fieldValueF : GField → MetricsF → Fl
  | .delta, m => m.delta
  | .gamma, m => m.gamma
  | .theta, m => m.theta
  | .vega, m => m.vega

/-- `_significant_change` on floats (thresholds are plain configuration
constants, hence exact). -/
def significantChangeF (old_value new_value : Fl) (threshold : ℚ) :
    Option Bool :=
  if Fl.flt (Fl.fabs old_value) (.fin eps) then
    some (Fl.fgt (Fl.fabs new_value) (.fin threshold))
  else
    (Fl.fdiv (Fl.fsub new_value old_value) old_value).map
      fun c => Fl.fge (Fl.fabs c) (.fin threshold)

/-- `_calc_change_pct` on floats. -/
def calcChangePctF (old_value new_value : Fl) : Option Fl :=
  if Fl.flt (Fl.fabs old_value) (.fin eps) then
    some (if Fl.flt (Fl.fabs new_value) (.fin eps) then .fin 0 else .fin 100)
  else
    (Fl.fdiv (Fl.fsub new_value old_value) old_value).map
      fun c => Fl.fmul c (.fin 100)

/-- `_classify_severity` on floats. -/
def classifySeverityF (old_value new_value : Fl) (threshold : ℚ) :
    Option String :=
  if Fl.flt (Fl.fabs old_value) (.fin eps) then some "MEDIUM"
  else
    (Fl.fdiv (Fl.fsub new_value old_value) old_value).map fun c =>
      let change_pct := Fl.fabs c
      if Fl.fge change_pct (.fin (threshold * 3)) then "HIGH"
      else if Fl.fge change_pct (.fin (threshold * (3/2))) then "MEDIUM"
      else "LOW"

/-- The common shape of the four per-field blocks of `detect_events`: run
`_significant_change`, and only when it fires compute severity and
percentage change and build the event, exactly as in the code. -/
def fieldEventF (ts : String) (old_value new_value : Fl) (threshold : ℚ)
    (etype desc : String) : Option (List RiskEventF) :=
  match significantChangeF old_value new_value threshold with
  | none => none
  | some sig =>
    if sig then
      match classifySeverityF old_value new_value threshold,
          calcChangePctF old_value new_value with
      | some sev, some pct =>
        some [{ timestamp := ts, event_type := etype, severity := sev
                description := desc, old_value := old_value
                new_value := new_value, change_pct := pct }]
      | _, _ => none
    else some []

/-- The `event_history[-max_history_size:]` trim, float-valued events. -/
def trimHistoryF (h : List RiskEventF) : List RiskEventF :=
  if h.length > 100 then h.drop (h.length - 100) else h

/-- `detect_events` in the IEEE-flavoured embedding.  The third component of
a successful result is the list of log messages the call emits — the source
contains no logging statement anywhere in `detect_events` or its helpers, so
it is the empty list by construction.  A `none` result models an uncaught
exception escaping the call. -/
def detectEventsF (s : DetectorStateF) (t : RiskThresholds) (cur : MetricsF) :
    Option (List RiskEventF × DetectorStateF × List String) :=
  match s.previous_metrics with
  | none => some ([], { s with previous_metrics := some cur }, [])
  | some prev =>
    match fieldEventF cur.timestamp prev.delta cur.delta
        t.delta_change_threshold "DELTA_CHANGE" "Delta changed",
      fieldEventF cur.timestamp prev.gamma cur.gamma
        t.gamma_change_threshold "GAMMA_CHANGE" "Gamma changed",
      fieldEventF cur.timestamp prev.theta cur.theta
        t.theta_change_threshold "THETA_CHANGE" "Theta changed",
      fieldEventF cur.timestamp prev.vega cur.vega
        t.vega_change_threshold "VEGA_CHANGE" "Vega changed" with
    | some dE, some gE, some tE, some vE =>
      let rE := if prev.risk_regime ≠ cur.risk_regime then
          [{ timestamp := cur.timestamp, event_type := "REGIME_CHANGE"
             severity := regimeChangeSeverity prev.risk_regime cur.risk_regime
             description := "Risk regime transitioned"
             old_value := Fl.fin 0, new_value := Fl.fin 0
             change_pct := Fl.fin 0 }]
        else []
      let events := dE ++ gE ++ tE ++ vE ++ rE
      some (events,
        { previous_metrics := some cur
          event_history := trimHistoryF (s.event_history ++ events) }, [])
    | _, _, _, _ => none

/-! ## Analytic facts about the standard normal density and CDF -/

theorem normPdf_nonneg (x : ℝ) : 0 ≤ normPdf x :=
  ProbabilityTheory.gaussianPDFReal_nonneg 0 1 x

theorem normPdf_neg (x : ℝ) : normPdf (-x) = normPdf x := by
  simp [normPdf, ProbabilityTheory.gaussianPDFReal]

theorem integrable_normPdf : MeasureTheory.Integrable normPdf :=
  ProbabilityTheory.integrable_gaussianPDFReal 0 1

theorem integral_normPdf : ∫ x, normPdf x = 1 :=
  ProbabilityTheory.integral_gaussianPDFReal_eq_one 0 one_ne_zero

theorem normCdf_nonneg (x : ℝ) : 0 ≤ normCdf x :=
  MeasureTheory.setIntegral_nonneg measurableSet_Iic fun t _ => normPdf_nonneg t

theorem normCdf_add_neg (x : ℝ) : normCdf x + normCdf (-x) = 1 := by
  have h2 : normCdf (-x) = ∫ t in Set.Ioi x, normPdf t := by
    calc normCdf (-x) = ∫ t in Set.Iic (-x), normPdf (-t) := by
          refine (MeasureTheory.setIntegral_congr_fun measurableSet_Iic
            fun t _ => ?_)
          rw [normPdf_neg]
      _ = ∫ t in Set.Ioi (-(-x)), normPdf t := integral_comp_neg_Iic (-x) normPdf
      _ = ∫ t in Set.Ioi x, normPdf t := by rw [neg_neg]
  rw [normCdf, h2,
    intervalIntegral.integral_Iic_add_Ioi integrable_normPdf.integrableOn
      integrable_normPdf.integrableOn,
    integral_normPdf]

theorem normCdf_le_one (x : ℝ) : normCdf x ≤ 1 := by
  have h := normCdf_add_neg x
  have h2 := normCdf_nonneg (-x)
  linarith

theorem normCdf_mono {x y : ℝ} (h : x ≤ y) : normCdf x ≤ normCdf y :=
  MeasureTheory.setIntegral_mono_set integrable_normPdf.integrableOn
    (MeasureTheory.ae_of_all _ fun t => normPdf_nonneg t)
    (HasSubset.Subset.eventuallyLE (Set.Iic_subset_Iic.mpr h))

theorem normCdf_zero : normCdf 0 = 1 / 2 := by
  have h := normCdf_add_neg 0
  rw [neg_zero] at h
  linarith

/-! ## Helper lemmas for the detector claims -/

/-- `_significant_change` returns `True` exactly under the spec's two-case
condition: inclusive relative-change test when `|old| ≥ 1e-10`, strict
absolute test against the fractional threshold when `|old| < 1e-10`. -/
theorem significantChange_iff (o n thr : ℚ) :
    significantChange o n thr = true ↔
      ((eps ≤ |o| ∧ thr ≤ |(n - o) / o|) ∨ (|o| < eps ∧ thr < |n|)) := by
  unfold significantChange
  split_ifs with h
  · simp only [decide_eq_true_eq, gt_iff_lt]
    constructor
    · intro hn; exact Or.inr ⟨h, hn⟩
    · rintro (⟨h1, _⟩ | ⟨_, h2⟩)
      · exact absurd h (not_lt.mpr h1)
      · exact h2
  · simp only [decide_eq_true_eq, ge_iff_le]
    constructor
    · intro hc; exact Or.inl ⟨not_lt.mp h, hc⟩
    · rintro (⟨_, h2⟩ | ⟨h1, _⟩)
      · exact h2
      · exact absurd h1 h

theorem exists_mem_ite_singleton_append {α : Type} {c : Prop} [Decidable c]
    (e1 : α) (rest : List α) (P : α → Prop) :
    (∃ e ∈ (if c then [e1] else []) ++ rest, P e) ↔
      (c ∧ P e1) ∨ ∃ e ∈ rest, P e := by
  split_ifs with h <;> simp [h]

theorem exists_mem_ite_singleton {α : Type} {c : Prop} [Decidable c]
    (e1 : α) (P : α → Prop) :
    (∃ e ∈ (if c then [e1] else []), P e) ↔ c ∧ P e1 := by
  split_ifs with h <;> simp [h]

/-- A `<FIELD>_CHANGE` event appears among one warm transition's events iff
`_significant_change` fired for that field. -/
theorem mem_warmEvents_iff (t : RiskThresholds) (prev cur : Metrics) (f : GField) :
    (∃ e ∈ warmEvents t prev cur, e.event_type = fieldEventType f) ↔
      significantChange (fieldValue f prev) (fieldValue f cur)
        (fieldThreshold f t) = true := by
  cases f <;>
    simp [warmEvents, exists_mem_ite_singleton_append, exists_mem_ite_singleton,
      fieldEventType, fieldValue, fieldThreshold, or_and_right, exists_or,
      and_assoc, exists_and_left, exists_eq_left]

/-! ## Claim theorems -/

/-- C1: on every warm-state `detect_events` call, a `<FIELD>_CHANGE` event is
emitted for a Greek field exactly when either `|old| ≥ 1e-10` and the
relative change `|(new-old)/old|` is ≥ the field's configured threshold
(boundary inclusive), or `|old| < 1e-10` and `|new|` strictly exceeds the
field's fractional threshold used as an absolute cutoff. -/
theorem C1_field_change_iff (t : RiskThresholds) (prev cur : Metrics)
    (hist : List RiskEvent) (f : GField) :
    (∃ e ∈ (detectEvents ⟨some prev, hist⟩ t cur).1,
        e.event_type = fieldEventType f) ↔
      ((eps ≤ |fieldValue f prev| ∧
          fieldThreshold f t ≤
            |(fieldValue f cur - fieldValue f prev) / fieldValue f prev|) ∨
       (|fieldValue f prev| < eps ∧ fieldThreshold f t < |fieldValue f cur|)) := by
  have hevs : (detectEvents ⟨some prev, hist⟩ t cur).1 = warmEvents t prev cur := rfl
  rw [hevs, mem_warmEvents_iff, significantChange_iff]

/-- C2: `compute_risk_score` equals the clamped weighted sum
`clamp(0.25·min(|δ|·100,100) + 0.35·min(|γ|·1000,100) + 0.20·min(|θ|·10,100)
+ 0.20·min(|ν|·5,100), 0, 100)` and always lies in `[0, 100]`. -/
theorem C2_risk_score_formula (g : Greeks) :
    compute_risk_score g =
      min (max ((25/100) * min (|g.delta| * 100) 100 +
        (35/100) * min (|g.gamma| * 1000) 100 +
        (20/100) * min (|g.theta| * 10) 100 +
        (20/100) * min (|g.vega| * 5) 100) 0) 100 ∧
    0 ≤ compute_risk_score g ∧ compute_risk_score g ≤ 100 := by
  refine ⟨rfl, ?_, ?_⟩
  · exact le_min (le_max_right _ _) (by norm_num)
  · exact min_le_right _ _

/-- C3: under valid cutoffs `0 ≤ stable_max < sensitive_max ≤ 100` and a
score in `[0,100]`, `determine_risk_regime` returns exactly one of STABLE,
SENSITIVE, FRAGILE, with both boundary scores resolving to the lower
regime via the `≤` comparisons. -/
theorem C3_regime_totality (t : RiskThresholds) (s : ℚ)
    (hcut : 0 ≤ t.stable_max ∧ t.stable_max < t.sensitive_max ∧
      t.sensitive_max ≤ 100)
    (hs : 0 ≤ s ∧ s ≤ 100) :
    (determine_risk_regime t s = "STABLE" ↔ s ≤ t.stable_max) ∧
    (determine_risk_regime t s = "SENSITIVE" ↔
      t.stable_max < s ∧ s ≤ t.sensitive_max) ∧
    (determine_risk_regime t s = "FRAGILE" ↔ t.sensitive_max < s) ∧
    (determine_risk_regime t s = "STABLE" ∨
      determine_risk_regime t s = "SENSITIVE" ∨
      determine_risk_regime t s = "FRAGILE") := by
  obtain ⟨-, hlt, -⟩ := hcut
  unfold determine_risk_regime
  split_ifs with h1 h2 <;>
    refine ⟨?_, ?_, ?_, ?_⟩ <;> simp_all <;> linarith

/-- Witness for C3 at the default cutoffs (30, 65) and the boundary score 30,
which resolves to STABLE. -/
theorem C3_regime_totality_witness :
    (0 ≤ defaultRiskThresholds.stable_max ∧
      defaultRiskThresholds.stable_max < defaultRiskThresholds.sensitive_max ∧
      defaultRiskThresholds.sensitive_max ≤ 100) ∧
    ((0:ℚ) ≤ 30 ∧ (30:ℚ) ≤ 100) ∧
    (determine_risk_regime defaultRiskThresholds 30 = "STABLE" ↔
      (30:ℚ) ≤ defaultRiskThresholds.stable_max) :=
  ⟨by norm_num [defaultRiskThresholds, mkRiskThresholds], by norm_num,
    (C3_regime_totality defaultRiskThresholds 30
      (by norm_num [defaultRiskThresholds, mkRiskThresholds]) (by norm_num)).1⟩

/-- C6: the first `detect_events` call on a freshly constructed detector
returns no events and stores the snapshot as the previous metrics. -/
theorem C6_cold_start (t : RiskThresholds) (cur : Metrics) :
    detectEvents initDetector t cur =
      ([], { previous_metrics := some cur, event_history := [] }) := rfl

/-- C8: the `RiskThresholds` dataclass performs no validation: constructing
it with the non-monotonic cutoffs `stable_max = 80 > sensitive_max = 30`
succeeds (no configuration error exists in the code), the invalid cutoffs are
stored as-is, and `determine_risk_regime` then happily classifies mid-stream
scores (score 50 → STABLE) instead of any failure having occurred at
construction time. -/
theorem C8_construction_accepts_invalid_cutoffs :
    (mkRiskThresholds (1/20) (1/10) (1/20) (1/10) 80 30 none).stable_max = 80 ∧
    (mkRiskThresholds (1/20) (1/10) (1/20) (1/10) 80 30 none).sensitive_max = 30 ∧
    ¬((mkRiskThresholds (1/20) (1/10) (1/20) (1/10) 80 30 none).stable_max <
      (mkRiskThresholds (1/20) (1/10) (1/20) (1/10) 80 30 none).sensitive_max) ∧
    determine_risk_regime (mkRiskThresholds (1/20) (1/10) (1/20) (1/10) 80 30 none)
      50 = "STABLE" := by
  refine ⟨rfl, rfl, by norm_num [mkRiskThresholds],
    by norm_num [determine_risk_regime, mkRiskThresholds]⟩

/-- C10: whenever a field-change event fires with `|old| < 1e-10`,
`_classify_severity` returns MEDIUM unconditionally — the HIGH and LOW tiers
are unreachable in the degenerate branch, however large the new value is. -/
theorem C10_degenerate_severity_medium (old_value new_value threshold : ℚ)
    (hold : |old_value| < eps)
    (hemit : significantChange old_value new_value threshold = true) :
    classifySeverity old_value new_value threshold = "MEDIUM" := by
  unfold classifySeverity
  simp [hold]

/-- Witness for C10: old value 0, new value 1000, threshold 0.05 — the event
fires and its severity is MEDIUM. -/
theorem C10_degenerate_severity_medium_witness :
    |(0:ℚ)| < eps ∧ significantChange 0 1000 (1/20) = true ∧
    classifySeverity 0 1000 (1/20) = "MEDIUM" :=
  ⟨by norm_num [eps], by norm_num [significantChange, eps],
    C10_degenerate_severity_medium 0 1000 (1/20) (by norm_num [eps])
      (by norm_num [significantChange, eps])⟩

/-- Exact put-call parity of the embedded Black-76 pricer for `T > 0`. -/
theorem black76_parity (F K T r σ : ℝ) (hT : 0 < T) :
    black76Price F K T r σ .call - black76Price F K T r σ .put =
      Real.exp (-r * T) * (F - K) := by
  have hT' : ¬ T ≤ 0 := not_le.mpr hT
  simp only [black76Price, if_neg hT']
  have h1 := normCdf_add_neg
    ((Real.log (F / K) + σ ^ 2 / 2 * T) / (σ * Real.sqrt T))
  have h2 := normCdf_add_neg
    ((Real.log (F / K) + σ ^ 2 / 2 * T) / (σ * Real.sqrt T) - σ * Real.sqrt T)
  linear_combination (Real.exp (-r * T) * F) * h1 - (Real.exp (-r * T) * K) * h2

/-- C4: put-call parity — for every `F > 0`, `K > 0`, `T > 0`, rate `r` and
`σ > 0`, the Black-76 call price minus the put price equals
`exp(−r·T)·(F − K)` within `1e-6` (in exact arithmetic the difference is
exactly zero). -/
theorem C4_put_call_parity (F K T r σ : ℝ) (hF : 0 < F) (hK : 0 < K)
    (hT : 0 < T) (hσ : 0 < σ) :
    |black76Price F K T r σ .call - black76Price F K T r σ .put -
      Real.exp (-r * T) * (F - K)| ≤ 1 / 1000000 := by
  rw [black76_parity F K T r σ hT, sub_self, abs_zero]
  norm_num

/-- Witness for C4 at `F = 2, K = 1, T = 1, r = 0, σ = 1`. -/
theorem C4_put_call_parity_witness :
    ((0:ℝ) < 2 ∧ (0:ℝ) < 1) ∧
    |black76Price 2 1 1 0 1 .call - black76Price 2 1 1 0 1 .put -
      Real.exp (-0 * 1) * (2 - 1)| ≤ 1 / 1000000 :=
  ⟨by norm_num,
    C4_put_call_parity 2 1 1 0 1 (by norm_num) (by norm_num) (by norm_num)
      (by norm_num)⟩

/-- C5 counterexample: at `F = K = 1`, `T = 1e-9`, `r = -100000`, `σ = 1`
the kernel floors the time to `0.0001` and computes the discount factor at
the floored time, so the call delta `exp(10)·Φ(0.005) ≥ 5.5` strictly
exceeds the claimed bound `D = exp(−r·T) = exp(0.0001) < 3`: call delta is
NOT in `[0, D]` as the claim states it. -/
theorem C5_counterexample :
    Real.exp (-(-100000 : ℝ) * (1 / 1000000000)) <
      (computeGreeks 1 1 (1 / 1000000000) (-100000) 1 .call).delta := by
  have hs : Real.sqrt (1 / 10000) = 1 / 100 := by
    rw [show (1 / 10000 : ℝ) = (1 / 100) ^ 2 by norm_num,
      Real.sqrt_sq (by norm_num : (0:ℝ) ≤ 1 / 100)]
  have hd : (computeGreeks 1 1 (1 / 1000000000) (-100000) 1 .call).delta
      = Real.exp 10 * normCdf (1 / 200) := by
    simp only [computeGreeks,
      if_pos (by norm_num : (1 / 1000000000 : ℝ) ≤ 1 / 10000), hs]
    norm_num
  rw [hd]
  have hmono : (1:ℝ) / 2 ≤ normCdf (1 / 200) := by
    calc (1:ℝ) / 2 = normCdf 0 := normCdf_zero.symm
      _ ≤ normCdf (1 / 200) := normCdf_mono (by norm_num)
  have hexp : (11:ℝ) ≤ Real.exp 10 := by
    have h := Real.add_one_le_exp (10:ℝ)
    linarith
  have hlow : (11:ℝ) * (1 / 2) ≤ Real.exp 10 * normCdf (1 / 200) :=
    mul_le_mul hexp hmono (by norm_num) (by positivity)
  have hhi : Real.exp (-(-100000 : ℝ) * (1 / 1000000000)) < 3 := by
    rw [show (-(-100000 : ℝ) * (1 / 1000000000)) = 1 / 10000 by norm_num]
    calc Real.exp (1 / 10000) ≤ Real.exp 1 := Real.exp_le_exp.mpr (by norm_num)
      _ < 3 := by
        have h := Real.exp_one_lt_d9
        linarith
  linarith

/-- C5 (amended): for valid kernel inputs whose time to expiration is at
least the kernel's floor `0.0001` — so that the floored time equals `T` and
the discount factor is `D = exp(−r·T)` — the call delta lies in `[0, D]`,
the put delta lies in `[−D, 0]`, and gamma is non-negative for both option
types.  (For `T < 0.0001` the code computes everything at the floored time,
and with `r < 0` the call delta can exceed `exp(−r·T)`; see the
counterexample.) -/
theorem C5_delta_gamma_bounds (F K T r σ : ℝ) (hF : 0 < F)
    (hT : 1 / 10000 ≤ T) (hσ : 0 < σ) :
    (0 ≤ (computeGreeks F K T r σ .call).delta ∧
      (computeGreeks F K T r σ .call).delta ≤ Real.exp (-r * T)) ∧
    (-(Real.exp (-r * T)) ≤ (computeGreeks F K T r σ .put).delta ∧
      (computeGreeks F K T r σ .put).delta ≤ 0) ∧
    0 ≤ (computeGreeks F K T r σ .call).gamma ∧
    0 ≤ (computeGreeks F K T r σ .put).gamma := by
  have hfloor : (if T ≤ 1 / 10000 then (1 / 10000 : ℝ) else T) = T := by
    split_ifs with h
    · exact (le_antisymm h hT).symm
    · rfl
  simp only [computeGreeks, hfloor]
  constructor
  · constructor
    · exact mul_nonneg (Real.exp_pos _).le (normCdf_nonneg _)
    · exact mul_le_of_le_one_right (Real.exp_pos _).le (normCdf_le_one _)
  constructor
  · constructor
    · have h := mul_le_of_le_one_right (Real.exp_pos (-r * T)).le
        (normCdf_le_one (-((Real.log (F / K) + σ ^ 2 / 2 * T) / (σ * Real.sqrt T))))
      linarith
    · have h := mul_nonneg (Real.exp_pos (-r * T)).le
        (normCdf_nonneg (-((Real.log (F / K) + σ ^ 2 / 2 * T) / (σ * Real.sqrt T))))
      linarith
  constructor
  · apply div_nonneg
    · exact mul_nonneg (Real.exp_pos _).le (normPdf_nonneg _)
    · positivity
  · apply div_nonneg
    · exact mul_nonneg (Real.exp_pos _).le (normPdf_nonneg _)
    · positivity

/-- Witness for the amended C5 at `F = K = 1, T = 1, r = 0, σ = 1`. -/
theorem C5_delta_gamma_bounds_witness :
    ((0:ℝ) < 1 ∧ (1:ℝ) / 10000 ≤ 1) ∧
    ((0 ≤ (computeGreeks 1 1 1 0 1 .call).delta ∧
      (computeGreeks 1 1 1 0 1 .call).delta ≤ Real.exp (-0 * 1)) ∧
    (-(Real.exp (-0 * 1)) ≤ (computeGreeks 1 1 1 0 1 .put).delta ∧
      (computeGreeks 1 1 1 0 1 .put).delta ≤ 0) ∧
    0 ≤ (computeGreeks 1 1 1 0 1 .call).gamma ∧
    0 ≤ (computeGreeks 1 1 1 0 1 .put).gamma) :=
  ⟨by norm_num,
    C5_delta_gamma_bounds 1 1 1 0 1 (by norm_num) (by norm_num) (by norm_num)⟩

/-- C7: for every base price and every configured list of shock fractions,
the shock engine evaluates the Greeks kernel at
`shocked_price = base_price·(1 + shock_fraction)` with all other parameters
(strike, expiration time, rate, volatility, option type) unchanged, and
labels each scenario `shock_<sign><percent>pct` — e.g. `shock_+5pct` for
`+0.05` and `shock_-1pct` for `−0.01`. -/
theorem C7_shock_scenarios (opt : OptionContract)
    (base_price current_time volatility : ℝ) (shocks : List ℚ) :
    computeShockScenarios opt base_price current_time volatility shocks =
      shocks.map (fun f =>
        (shockLabel f,
          calculateOptionGreeks opt (base_price * (1 + (f : ℝ)))
            current_time volatility)) ∧
    shockLabel (5/100) = "shock_+5pct" ∧
    shockLabel (-1/100) = "shock_-1pct" := by
  refine ⟨rfl, ?_, ?_⟩
  · rw [shockLabel, if_pos (by norm_num : (0:ℚ) ≤ 5/100),
      show ((5:ℚ)/100 * 100) = 5 by norm_num,
      show truncQ 5 = 5 by norm_num [truncQ]]
    rfl
  · rw [shockLabel, if_neg (by norm_num : ¬ (0:ℚ) ≤ -1/100),
      show ((-1:ℚ)/100 * 100) = -1 by norm_num,
      show truncQ (-1) = -1 by norm_num [truncQ, Int.ceil_neg]]
    rfl

/-! ## Lemmas about the IEEE-flavoured detector -/

theorem ne_zero_of_not_abs_lt_eps {p : ℚ} (h : ¬ |p| < eps) : p ≠ 0 := by
  intro h0
  apply h
  rw [h0, abs_zero]
  norm_num [eps]

theorem significantChangeF_fin (p q thr : ℚ) :
    significantChangeF (.fin p) (.fin q) thr =
      some (significantChange p q thr) := by
  unfold significantChangeF significantChange
  by_cases h : |p| < eps
  · simp [Fl.flt, Fl.fabs, Fl.fgt, h]
  · have hp := ne_zero_of_not_abs_lt_eps h
    simp [Fl.flt, Fl.fabs, Fl.fsub, Fl.fdiv, Fl.fge, h, hp]

theorem significantChangeF_nanL (new_value : Fl) (thr : ℚ) :
    significantChangeF .nan new_value thr = some false := by
  cases new_value <;>
    simp [significantChangeF, Fl.flt, Fl.fabs, Fl.fsub, Fl.fdiv, Fl.fge]

theorem significantChangeF_nanR (p thr : ℚ) :
    significantChangeF (.fin p) .nan thr = some false := by
  unfold significantChangeF
  by_cases h : |p| < eps
  · simp [Fl.flt, Fl.fabs, Fl.fgt, h]
  · have hp := ne_zero_of_not_abs_lt_eps h
    simp [Fl.flt, Fl.fabs, Fl.fsub, Fl.fdiv, Fl.fge, h, hp]

theorem significantChangeF_isSome (o n : Fl) (thr : ℚ) :
    ∃ b, significantChangeF o n thr = some b := by
  cases o with
  | nan => exact ⟨false, significantChangeF_nanL n thr⟩
  | fin p =>
    cases n with
    | nan => exact ⟨false, significantChangeF_nanR p thr⟩
    | fin q => exact ⟨significantChange p q thr, significantChangeF_fin p q thr⟩

theorem classifySeverityF_isSome (o n : Fl) (thr : ℚ) :
    ∃ s, classifySeverityF o n thr = some s := by
  unfold classifySeverityF
  cases o with
  | nan => cases n <;> simp [Fl.flt, Fl.fabs, Fl.fsub, Fl.fdiv]
  | fin p =>
    by_cases h : |p| < eps
    · simp [Fl.flt, Fl.fabs, h]
    · have hp := ne_zero_of_not_abs_lt_eps h
      cases n <;> simp [Fl.flt, Fl.fabs, Fl.fsub, Fl.fdiv, h, hp]

theorem calcChangePctF_isSome (o n : Fl) :
    ∃ v, calcChangePctF o n = some v := by
  unfold calcChangePctF
  cases o with
  | nan => cases n <;> simp [Fl.flt, Fl.fabs, Fl.fsub, Fl.fdiv]
  | fin p =>
    by_cases h : |p| < eps
    · simp [Fl.flt, Fl.fabs, h]
    · have hp := ne_zero_of_not_abs_lt_eps h
      cases n <;> simp [Fl.flt, Fl.fabs, Fl.fsub, Fl.fdiv, h, hp]

/-- One per-field block never fails, every event it emits carries its own
event type, and it emits an event exactly when `_significant_change`
fired. -/
theorem fieldEventF_spec (ts : String) (o n : Fl) (thr : ℚ)
    (etype desc : String) :
    ∃ l, fieldEventF ts o n thr etype desc = some l ∧
      (∀ e ∈ l, e.event_type = etype) ∧
      ((∃ e ∈ l, e.event_type = etype) ↔
        significantChangeF o n thr = some true) := by
  obtain ⟨b, hb⟩ := significantChangeF_isSome o n thr
  obtain ⟨sev, hsev⟩ := classifySeverityF_isSome o n thr
  obtain ⟨pct, hpct⟩ := calcChangePctF_isSome o n
  unfold fieldEventF
  cases b with
  | false =>
    refine ⟨[], ?_, by simp, by simp [hb]⟩
    simp [hb]
  | true =>
    refine ⟨[{ timestamp := ts, event_type := etype, severity := sev
               description := desc, old_value := o
               new_value := n, change_pct := pct }], ?_, ?_, ?_⟩
    · simp [hb, hsev, hpct]
    · intro e he
      simp only [List.mem_singleton] at he
      rw [he]
    · simp [hb]

theorem exists_mem_append_or {α : Type} (A B : List α) (P : α → Prop) :
    (∃ e ∈ A ++ B, P e) ↔ (∃ e ∈ A, P e) ∨ ∃ e ∈ B, P e := by
  constructor
  · rintro ⟨e, he, hPe⟩
    rcases List.mem_append.mp he with h | h
    exacts [Or.inl ⟨e, h, hPe⟩, Or.inr ⟨e, h, hPe⟩]
  · rintro (⟨e, h, hPe⟩ | ⟨e, h, hPe⟩)
    exacts [⟨e, List.mem_append_left _ h, hPe⟩,
      ⟨e, List.mem_append_right _ h, hPe⟩]

theorem not_exists_type {l : List RiskEventF} {a b : String}
    (hall : ∀ e ∈ l, e.event_type = a) (hne : a ≠ b) :
    ¬ ∃ e ∈ l, e.event_type = b := by
  rintro ⟨e, he, het⟩
  exact hne ((hall e he).symm.trans het)

/-- C9 (amended): on every warm-state `detect_events` call — including any
with NaN Greek fields — the call returns successfully (never raises: the
near-zero guard prevents the only possible `ZeroDivisionError`, and every
comparison involving NaN is simply false), a field whose old or new value is
NaN emits no `<FIELD>_CHANGE` event, the remaining fields are still compared
exactly per `_significant_change`, the stream continues (the previous
snapshot is replaced by the new one) — but nothing is logged: the emitted
log-message list is empty, as `detect_events` contains no logging call. -/
theorem C9_nan_fields_skipped_not_logged (t : RiskThresholds)
    (prev cur : MetricsF) (hist : List RiskEventF) :
    ∃ evs st,
      detectEventsF ⟨some prev, hist⟩ t cur = some (evs, st, ([] : List String)) ∧
      st.previous_metrics = some cur ∧
      (∀ f : GField,
        ((∃ e ∈ evs, e.event_type = fieldEventType f) ↔
          significantChangeF (fieldValueF f prev) (fieldValueF f cur)
            (fieldThreshold f t) = some true)) ∧
      (∀ f : GField,
        (fieldValueF f prev = Fl.nan ∨ fieldValueF f cur = Fl.nan) →
          ∀ e ∈ evs, e.event_type ≠ fieldEventType f) := by
  obtain ⟨dl, hdl, hdall, hdiff⟩ := fieldEventF_spec cur.timestamp prev.delta
    cur.delta t.delta_change_threshold "DELTA_CHANGE" "Delta changed"
  obtain ⟨gl, hgl, hgall, hgiff⟩ := fieldEventF_spec cur.timestamp prev.gamma
    cur.gamma t.gamma_change_threshold "GAMMA_CHANGE" "Gamma changed"
  obtain ⟨tl, htl, htall, htiff⟩ := fieldEventF_spec cur.timestamp prev.theta
    cur.theta t.theta_change_threshold "THETA_CHANGE" "Theta changed"
  obtain ⟨vl, hvl, hvall, hviff⟩ := fieldEventF_spec cur.timestamp prev.vega
    cur.vega t.vega_change_threshold "VEGA_CHANGE" "Vega changed"
  have heq : detectEventsF ⟨some prev, hist⟩ t cur =
      some (dl ++ gl ++ tl ++ vl ++
          (if prev.risk_regime ≠ cur.risk_regime then
            [{ timestamp := cur.timestamp, event_type := "REGIME_CHANGE"
               severity := regimeChangeSeverity prev.risk_regime cur.risk_regime
               description := "Risk regime transitioned"
               old_value := Fl.fin 0, new_value := Fl.fin 0
               change_pct := Fl.fin 0 }]
           else []),
        { previous_metrics := some cur
          event_history := trimHistoryF (hist ++ (dl ++ gl ++ tl ++ vl ++
            (if prev.risk_regime ≠ cur.risk_regime then
              [{ timestamp := cur.timestamp, event_type := "REGIME_CHANGE"
                 severity := regimeChangeSeverity prev.risk_regime cur.risk_regime
                 description := "Risk regime transitioned"
                 old_value := Fl.fin 0, new_value := Fl.fin 0
                 change_pct := Fl.fin 0 }]
             else []))) }, ([] : List String)) := by
    unfold detectEventsF
    simp only [hdl, hgl, htl, hvl]
  have hrall : ∀ e ∈ (if prev.risk_regime ≠ cur.risk_regime then
      ([{ timestamp := cur.timestamp, event_type := "REGIME_CHANGE"
          severity := regimeChangeSeverity prev.risk_regime cur.risk_regime
          description := "Risk regime transitioned"
          old_value := Fl.fin 0, new_value := Fl.fin 0
          change_pct := Fl.fin 0 }] : List RiskEventF)
      else []), e.event_type = "REGIME_CHANGE" := by
    intro e he
    split_ifs at he
    · simp only [List.mem_singleton] at he
      rw [he]
    · cases he
  refine ⟨_, _, heq, rfl, ?_, ?_⟩
  · intro f
    rw [exists_mem_append_or, exists_mem_append_or, exists_mem_append_or,
      exists_mem_append_or]
    cases f with
    | delta =>
      simp only [fieldValueF, fieldThreshold, fieldEventType]
      constructor
      · rintro ((((h | h) | h) | h) | h)
        · exact hdiff.mp h
        · exact absurd h (not_exists_type hgall (by simp))
        · exact absurd h (not_exists_type htall (by simp))
        · exact absurd h (not_exists_type hvall (by simp))
        · exact absurd h (not_exists_type hrall (by simp))
      · intro h
        exact Or.inl (Or.inl (Or.inl (Or.inl (hdiff.mpr h))))
    | gamma =>
      simp only [fieldValueF, fieldThreshold, fieldEventType]
      constructor
      · rintro ((((h | h) | h) | h) | h)
        · exact absurd h (not_exists_type hdall (by simp))
        · exact hgiff.mp h
        · exact absurd h (not_exists_type htall (by simp))
        · exact absurd h (not_exists_type hvall (by simp))
        · exact absurd h (not_exists_type hrall (by simp))
      · intro h
        exact Or.inl (Or.inl (Or.inl (Or.inr (hgiff.mpr h))))
    | theta =>
      simp only [fieldValueF, fieldThreshold, fieldEventType]
      constructor
      · rintro ((((h | h) | h) | h) | h)
        · exact absurd h (not_exists_type hdall (by simp))
        · exact absurd h (not_exists_type hgall (by simp))
        · exact htiff.mp h
        · exact absurd h (not_exists_type hvall (by simp))
        · exact absurd h (not_exists_type hrall (by simp))
      · intro h
        exact Or.inl (Or.inl (Or.inr (htiff.mpr h)))
    | vega =>
      simp only [fieldValueF, fieldThreshold, fieldEventType]
      constructor
      · rintro ((((h | h) | h) | h) | h)
        · exact absurd h (not_exists_type hdall (by simp))
        · exact absurd h (not_exists_type hgall (by simp))
        · exact absurd h (not_exists_type htall (by simp))
        · exact hviff.mp h
        · exact absurd h (not_exists_type hrall (by simp))
      · intro h
        exact Or.inl (Or.inr (hviff.mpr h))
  · intro f hn e he het
    have h1 : significantChangeF (fieldValueF f prev) (fieldValueF f cur)
        (fieldThreshold f t) = some true := by
      have hiff2 : (∃ e2 ∈ dl ++ gl ++ tl ++ vl ++
          (if prev.risk_regime ≠ cur.risk_regime then
            [{ timestamp := cur.timestamp, event_type := "REGIME_CHANGE"
               severity := regimeChangeSeverity prev.risk_regime cur.risk_regime
               description := "Risk regime transitioned"
               old_value := Fl.fin 0, new_value := Fl.fin 0
               change_pct := Fl.fin 0 }]
           else []), e2.event_type = fieldEventType f) := ⟨e, he, het⟩
      rw [exists_mem_append_or, exists_mem_append_or, exists_mem_append_or,
        exists_mem_append_or] at hiff2
      cases f with
      | delta =>
        simp only [fieldEventType, fieldValueF, fieldThreshold] at hiff2 ⊢
        rcases hiff2 with ((((h | h) | h) | h) | h)
        · exact hdiff.mp h
        · exact absurd h (not_exists_type hgall (by simp))
        · exact absurd h (not_exists_type htall (by simp))
        · exact absurd h (not_exists_type hvall (by simp))
        · exact absurd h (not_exists_type hrall (by simp))
      | gamma =>
        simp only [fieldEventType, fieldValueF, fieldThreshold] at hiff2 ⊢
        rcases hiff2 with ((((h | h) | h) | h) | h)
        · exact absurd h (not_exists_type hdall (by simp))
        · exact hgiff.mp h
        · exact absurd h (not_exists_type htall (by simp))
        · exact absurd h (not_exists_type hvall (by simp))
        · exact absurd h (not_exists_type hrall (by simp))
      | theta =>
        simp only [fieldEventType, fieldValueF, fieldThreshold] at hiff2 ⊢
        rcases hiff2 with ((((h | h) | h) | h) | h)
        · exact absurd h (not_exists_type hdall (by simp))
        · exact absurd h (not_exists_type hgall (by simp))
        · exact htiff.mp h
        · exact absurd h (not_exists_type hvall (by simp))
        · exact absurd h (not_exists_type hrall (by simp))
      | vega =>
        simp only [fieldEventType, fieldValueF, fieldThreshold] at hiff2 ⊢
        rcases hiff2 with ((((h | h) | h) | h) | h)
        · exact absurd h (not_exists_type hdall (by simp))
        · exact absurd h (not_exists_type hgall (by simp))
        · exact absurd h (not_exists_type htall (by simp))
        · exact hviff.mp h
        · exact absurd h (not_exists_type hrall (by simp))
    have h0 : significantChangeF (fieldValueF f prev) (fieldValueF f cur)
        (fieldThreshold f t) = some false := by
      rcases hn with hn | hn
      · rw [hn]
        exact significantChangeF_nanL _ _
      · cases hp : fieldValueF f prev with
        | nan => rw [hn]; exact significantChangeF_nanL _ _
        | fin p => rw [hn]; exact significantChangeF_nanR p _
    rw [h0] at h1
    simp at h1

/-- C9 counterexample to the claim as stated: feeding a warm detector a
transition whose old delta is NaN produces no crash and no DELTA_CHANGE
event — but, contrary to the claim, the anomaly is NOT logged: the call's
emitted log-message list (third component) is empty, because `detect_events`
contains no logging statement at all. -/
theorem C9_nan_counterexample :
    detectEventsF
      ⟨some { timestamp := "t0", delta := Fl.nan, gamma := Fl.fin 0
              theta := Fl.fin 0, vega := Fl.fin 0, risk_regime := "STABLE" },
        []⟩
      defaultRiskThresholds
      { timestamp := "t1", delta := Fl.fin 1, gamma := Fl.fin 0
        theta := Fl.fin 0, vega := Fl.fin 0, risk_regime := "STABLE" } =
    some ([],
      { previous_metrics :=
          some { timestamp := "t1", delta := Fl.fin 1, gamma := Fl.fin 0
                 theta := Fl.fin 0, vega := Fl.fin 0, risk_regime := "STABLE" }
        event_history := [] }, ([] : List String)) := by
  have hz : ∀ thr : ℚ, 0 < thr → significantChange 0 0 thr = false := by
    intro thr hthr
    unfold significantChange
    rw [if_pos (by rw [abs_zero]; norm_num [eps])]
    simp [abs_zero, not_lt.mpr hthr.le]
  unfold detectEventsF
  dsimp only [defaultRiskThresholds, mkRiskThresholds]
  unfold fieldEventF
  rw [significantChangeF_nanL, significantChangeF_fin, significantChangeF_fin,
    hz (1/10) (by norm_num), hz (1/20) (by norm_num)]
  simp [trimHistoryF]

end LiveAI
